import Mathlib

/-!
Shallow embedding of the credit approval system's scoring and eligibility
engine (`credit_system/services.py` and `credit_system/utils.py`).

Modelling conventions:
* Python `Decimal` values are modelled as exact rationals (`ℚ`); the spec
  (§4.3) requires exact decimal semantics, so the 28-significant-digit
  context of `decimal` is abstracted as exact arithmetic.
* Python `round` and `Decimal.quantize(Decimal(0.01))` both use the
  round-half-to-even rule; both are modelled by `roundHalfEven`.
* Python `date` values are modelled as (year, month, day) triples with the
  lexicographic order Python uses for date comparison.
* The count fields (`tenure`, `emis_paid_on_time`) are natural numbers,
  matching the data-model invariants (non-negative integers).
-/

/-- Calendar date (year, month, day). -/
structure CalDate where
  year : Int
  month : Int
  day : Int
deriving DecidableEq

/-- Python date comparison `a <= b`: lexicographic on (year, month, day). -/
def CalDate.le (a b : CalDate) : Bool :=
  decide (a.year < b.year ∨ (a.year = b.year ∧
    (a.month < b.month ∨ (a.month = b.month ∧ a.day ≤ b.day))))

/-- Customer snapshot: the fields of `credit_system/models.py::Customer` that
the engine reads.  `approved_limit` is an `IntegerField` in the model, hence
`Int`; the money fields are `Decimal`, hence `ℚ`. -/
structure Customer where
  monthly_salary : ℚ
  approved_limit : Int
  current_debt : ℚ
  total_current_emi : ℚ
deriving DecidableEq

/-- Historical loan record: the fields of `credit_system/models.py::Loan`
that the engine reads. -/
structure Loan where
  loan_amount : ℚ
  tenure : Nat
  emis_paid_on_time : Nat
  start_date : CalDate
  end_date : CalDate
deriving DecidableEq

/-- Round-half-to-even to the nearest integer: the rule used both by
Python's built-in `round` and by `Decimal.quantize` in its default context. -/
def roundHalfEven (q : ℚ) : ℤ :=
  if q - ⌊q⌋ < 1/2 then ⌊q⌋
  else if 1/2 < q - ⌊q⌋ then ⌊q⌋ + 1
  else if ⌊q⌋ % 2 = 0 then ⌊q⌋ else ⌊q⌋ + 1

/-- `Decimal.quantize(Decimal(0.01))`: round to two decimal places,
half-to-even. -/
def quantize2 (q : ℚ) : ℚ := (roundHalfEven (q * 100) : ℚ) / 100

/-- `credit_system/services.py::calculate_credit_score`.

The `customer.loans.all()` query set is the explicit argument `loans`;
`date.today()` is the explicit argument `today`.  The Python float division
`total_emis_paid / total_emis_due` and `emis_paid_on_time / expected_emis`
are modelled as exact rational division. -/
def calculate_credit_score (customer : Customer) (loans : List Loan)
    (requested_loan_amount : ℚ) (today : CalDate) : ℤ :=
  if customer.current_debt + requested_loan_amount > (customer.approved_limit : ℚ) then
    0
  else
    let total_emis_paid : ℕ := (loans.map (fun l => l.emis_paid_on_time)).sum
    let total_emis_due : ℕ := (loans.map (fun l => l.tenure)).sum
    let total_approved_volume : ℚ := (loans.map (fun l => l.loan_amount)).sum
    let total_closed_loans : ℕ := (loans.filter (fun l => l.end_date.le today)).length
    let has_recent_default : Bool := loans.any (fun l =>
      if l.start_date.year = today.year then
        let expected_emis : ℤ :=
          (today.year - l.start_date.year) * 12 + (today.month - l.start_date.month)
        decide (0 < expected_emis ∧
          (l.emis_paid_on_time : ℚ) / (expected_emis : ℚ) < 1/2)
      else false)
    let base_score : ℤ := 10
    let on_time_points : ℤ :=
      if 0 < total_emis_due then
        roundHalfEven (40 * ((total_emis_paid : ℚ) / (total_emis_due : ℚ)))
      else 0
    let volume_points : ℤ := min ((total_closed_loans : ℤ) * 5) 20
    let approved_volume_points : ℤ :=
      if total_approved_volume ≥ 5000000 then 15
      else if total_approved_volume ≥ 1000000 then 5
      else 0
    let activity_points : ℤ := if has_recent_default then 0 else 15
    min (base_score + on_time_points + volume_points +
      approved_volume_points + activity_points) 100

/-- `credit_system/utils.py::calculate_monthly_installment`.

EMI by the compound-interest formula, rounded to two decimal places, with
the zero-rate and zero-denominator special cases of the source. -/
def calculate_monthly_installment (principal annual_interest_rate : ℚ)
    (tenure_months : ℕ) : ℚ :=
  if annual_interest_rate = 0 then
    if tenure_months = 0 then 0
    else quantize2 (principal / (tenure_months : ℚ))
  else
    let r : ℚ := annual_interest_rate / 1200
    let pow_r_n : ℚ := (1 + r) ^ tenure_months
    let numer : ℚ := principal * r * pow_r_n
    let denom : ℚ := pow_r_n - 1
    if denom = 0 then 0
    else quantize2 (numer / denom)

/-- The dictionary returned by `check_loan_eligibility`.  The salary-gate
rejection dictionary lacks the `interest_rate` and `tenure` keys, so those
two fields are `Option`s (`none` means the key is absent). -/
structure EligibilityResult where
  approval : Bool
  interest_rate : Option ℚ
  corrected_interest_rate : ℚ
  tenure : Option ℕ
  monthly_installment : ℚ
  credit_score : ℤ
  message : String
deriving DecidableEq

/-- `credit_system/services.py::check_loan_eligibility`.

The source assigns `approved` and `required_min_rate` by one `if/elif`
chain over the score slabs; the mutation is modelled by the two parallel
conditional chains below (one per variable), with identical conditions. -/
def check_loan_eligibility (customer : Customer) (loans : List Loan)
    (loan_amount requested_rate : ℚ) (tenure : ℕ) (today : CalDate) :
    EligibilityResult :=
  let credit_score := calculate_credit_score customer loans loan_amount today
  let salary_limit := customer.monthly_salary / 2
  if customer.total_current_emi > salary_limit then
    { approval := false
      interest_rate := none
      corrected_interest_rate := requested_rate
      tenure := none
      monthly_installment := 0
      credit_score := credit_score
      message := "Total current EMIs exceed 50% of monthly salary." }
  else
    let approved : Bool :=
      if 50 < credit_score then true
      else if 30 < credit_score ∧ credit_score ≤ 50 then true
      else if 10 < credit_score ∧ credit_score ≤ 30 then true
      else false
    let required_min_rate : ℚ :=
      if 50 < credit_score then 0
      else if 30 < credit_score ∧ credit_score ≤ 50 then 12
      else if 10 < credit_score ∧ credit_score ≤ 30 then 16
      else 0
    let corrected_rate : ℚ :=
      if approved ∧ requested_rate < required_min_rate then required_min_rate
      else requested_rate
    let emi_rate : ℚ := if approved then corrected_rate else 0
    let monthly_installment : ℚ :=
      if approved then calculate_monthly_installment loan_amount emi_rate tenure
      else 0
    { approval := approved
      interest_rate := some requested_rate
      corrected_interest_rate := corrected_rate
      tenure := some tenure
      monthly_installment := monthly_installment
      credit_score := credit_score
      message := if approved then "Loan approved."
        else "Credit score too low for loan approval." }

/-! ## Concrete sample inputs used by witnesses and counterexamples -/

/-- A customer with salary 100, limit 1000, no debt and no current EMI. -/
def sampleCustomer : Customer := ⟨100, 1000, 0, 0⟩

/-- A fully repaid historical loan (12 of 12 EMIs on time, closed in 2021). -/
def sampleLoan : Loan :=
  { loan_amount := 100, tenure := 12, emis_paid_on_time := 12,
    start_date := ⟨2020, 1, 1⟩, end_date := ⟨2021, 1, 1⟩ }

/-- A fixed evaluation date. -/
def sampleToday : CalDate := ⟨2026, 10, 12⟩

/-! ## Helper lemmas -/

theorem roundHalfEven_nonneg {q : ℚ} (h : 0 ≤ q) : 0 ≤ roundHalfEven q := by
  have hf : 0 ≤ ⌊q⌋ := Int.le_floor.mpr (by exact_mod_cast h)
  unfold roundHalfEven
  split_ifs <;> omega

/-! ## C1: debt-limit hard gate -/

/-- C1: if the customer's current debt plus the proposed amount strictly
exceeds the approved limit, `calculate_credit_score` returns 0, for every
loan history. -/
theorem score_zero_of_over_limit (customer : Customer) (loans : List Loan)
    (amount : ℚ) (today : CalDate)
    (h : customer.current_debt + amount > (customer.approved_limit : ℚ)) :
    calculate_credit_score customer loans amount today = 0 := by
  unfold calculate_credit_score
  rw [if_pos h]

/-- Witness for C1 at a concrete over-limit input. -/
theorem score_zero_of_over_limit_witness :
    ((⟨100, 10, 20, 0⟩ : Customer).current_debt + 5 >
      (((⟨100, 10, 20, 0⟩ : Customer).approved_limit : ℤ) : ℚ)) ∧
    calculate_credit_score ⟨100, 10, 20, 0⟩ [] 5 ⟨2026, 10, 12⟩ = 0 :=
  ⟨by norm_num,
   score_zero_of_over_limit ⟨100, 10, 20, 0⟩ [] 5 ⟨2026, 10, 12⟩ (by norm_num)⟩

/-! ## C2: salary gate -/

/-- C2: when the current total EMI strictly exceeds half the monthly
salary, `check_loan_eligibility` rejects (approval false), returns a zero
monthly installment, and leaves the corrected rate equal to the requested
rate, for every score, amount, rate and tenure. -/
theorem salary_gate_rejects (customer : Customer) (loans : List Loan)
    (loan_amount requested_rate : ℚ) (tenure : ℕ) (today : CalDate)
    (h : customer.total_current_emi > customer.monthly_salary / 2) :
    (check_loan_eligibility customer loans loan_amount requested_rate tenure today).approval
      = false ∧
    (check_loan_eligibility customer loans loan_amount requested_rate tenure today).monthly_installment
      = 0 ∧
    (check_loan_eligibility customer loans loan_amount requested_rate tenure today).corrected_interest_rate
      = requested_rate := by
  simp only [check_loan_eligibility]
  rw [if_pos h]
  exact ⟨rfl, rfl, rfl⟩

/-- Witness for C2 at a concrete input with EMI 60 against salary 100. -/
theorem salary_gate_rejects_witness :
    ((⟨100, 1000, 0, 60⟩ : Customer).total_current_emi >
      (⟨100, 1000, 0, 60⟩ : Customer).monthly_salary / 2) ∧
    (check_loan_eligibility ⟨100, 1000, 0, 60⟩ [] 50 8 12 ⟨2026, 10, 12⟩).approval = false ∧
    (check_loan_eligibility ⟨100, 1000, 0, 60⟩ [] 50 8 12 ⟨2026, 10, 12⟩).monthly_installment = 0 ∧
    (check_loan_eligibility ⟨100, 1000, 0, 60⟩ [] 50 8 12 ⟨2026, 10, 12⟩).corrected_interest_rate = 8 :=
  ⟨by norm_num,
   salary_gate_rejects ⟨100, 1000, 0, 60⟩ [] 50 8 12 ⟨2026, 10, 12⟩ (by norm_num)⟩

/-! ## C10: the credit score is computed before the salary gate -/

/-- C10: even when the salary gate rejects, the result's credit-score field
equals `calculate_credit_score` on the same profile, history and amount. -/
theorem salary_gate_reports_score (customer : Customer) (loans : List Loan)
    (loan_amount requested_rate : ℚ) (tenure : ℕ) (today : CalDate)
    (h : customer.total_current_emi > customer.monthly_salary / 2) :
    (check_loan_eligibility customer loans loan_amount requested_rate tenure today).credit_score
      = calculate_credit_score customer loans loan_amount today := by
  simp only [check_loan_eligibility]
  rw [if_pos h]

/-- Witness for C10 at a concrete salary-gate rejection. -/
theorem salary_gate_reports_score_witness :
    ((⟨100, 1000, 0, 70⟩ : Customer).total_current_emi >
      (⟨100, 1000, 0, 70⟩ : Customer).monthly_salary / 2) ∧
    (check_loan_eligibility ⟨100, 1000, 0, 70⟩ [] 50 8 12 ⟨2026, 10, 12⟩).credit_score
      = calculate_credit_score ⟨100, 1000, 0, 70⟩ [] 50 ⟨2026, 10, 12⟩ :=
  ⟨by norm_num,
   salary_gate_reports_score ⟨100, 1000, 0, 70⟩ [] 50 8 12 ⟨2026, 10, 12⟩ (by norm_num)⟩

/-! ## C5: empty history score -/

/-- C5: with an empty loan history and the debt-limit gate not triggered,
the credit score is exactly 25 (10-point limit-check base plus the
15-point activity bonus; the other components contribute 0). -/
theorem score_empty_history (customer : Customer) (amount : ℚ) (today : CalDate)
    (h : ¬ customer.current_debt + amount > (customer.approved_limit : ℚ)) :
    calculate_credit_score customer [] amount today = 25 := by
  simp only [calculate_credit_score]
  rw [if_neg h]
  rfl

/-- Witness for C5 at a concrete within-limit input. -/
theorem score_empty_history_witness :
    (¬ (⟨100, 1000, 0, 0⟩ : Customer).current_debt + 5 >
      (((⟨100, 1000, 0, 0⟩ : Customer).approved_limit : ℤ) : ℚ)) ∧
    calculate_credit_score ⟨100, 1000, 0, 0⟩ [] 5 ⟨2026, 10, 12⟩ = 25 :=
  ⟨by norm_num,
   score_empty_history ⟨100, 1000, 0, 0⟩ 5 ⟨2026, 10, 12⟩ (by norm_num)⟩

/-! ## C6: zero-rate installment -/

/-- C6: at a zero annual rate the installment is 0 for a zero tenure, and
the two-decimal rounding of `principal / n` for a positive tenure `n`. -/
theorem zero_rate_installment (principal : ℚ) (n : ℕ) :
    (n = 0 → calculate_monthly_installment principal 0 n = 0) ∧
    (0 < n → calculate_monthly_installment principal 0 n
      = quantize2 (principal / (n : ℚ))) := by
  constructor
  · intro hn
    unfold calculate_monthly_installment
    rw [if_pos rfl, if_pos hn]
  · intro hn
    unfold calculate_monthly_installment
    rw [if_pos rfl, if_neg (Nat.pos_iff_ne_zero.mp hn)]

/-- Witness for C6: tenure 0 gives 0; tenure 3 at principal 100 gives
33.33 (the two-place rounding of 100/3). -/
theorem zero_rate_installment_witness :
    calculate_monthly_installment 100 0 0 = 0 ∧
    (0 < 3 ∧ calculate_monthly_installment 100 0 3 = 3333 / 100) :=
  ⟨(zero_rate_installment 100 0).1 rfl,
   by norm_num,
   by rw [(zero_rate_installment 100 3).2 (by norm_num)]
      norm_num [quantize2, roundHalfEven]⟩

/-! ## C7: amortization check value -/

/-- C7: principal 100000 at annual rate 12 percent over 12 months yields a
monthly installment of exactly 8884.88 in exact decimal arithmetic. -/
theorem installment_check_value :
    calculate_monthly_installment 100000 12 12 = 888488 / 100 := by
  norm_num [calculate_monthly_installment, quantize2, roundHalfEven]

/-! ## C4: score bounds -/

/-- C4: under the data-model preconditions (per-loan on-time count at most
the tenure, positive principals, non-negative current debt) the credit
score lies between 0 and 100. -/
theorem score_bounds (customer : Customer) (loans : List Loan)
    (amount : ℚ) (today : CalDate)
    (hpaid : ∀ l ∈ loans, l.emis_paid_on_time ≤ l.tenure)
    (hamt : ∀ l ∈ loans, 0 < l.loan_amount)
    (hdebt : 0 ≤ customer.current_debt) :
    0 ≤ calculate_credit_score customer loans amount today ∧
    calculate_credit_score customer loans amount today ≤ 100 := by
  simp only [calculate_credit_score]
  by_cases h : customer.current_debt + amount > (customer.approved_limit : ℚ)
  · rw [if_pos h]
    exact ⟨le_refl 0, by norm_num⟩
  · rw [if_neg h]
    refine ⟨le_min ?_ (by norm_num), min_le_right _ _⟩
    refine add_nonneg (add_nonneg (add_nonneg (add_nonneg (by norm_num) ?_) ?_) ?_) ?_
    · split_ifs with hdue
      · exact roundHalfEven_nonneg (by positivity)
      · exact le_refl 0
    · exact le_min (by positivity) (by norm_num)
    · split_ifs <;> norm_num
    · split_ifs <;> norm_num

/-- Witness for C4 at a concrete customer with one fully paid loan. -/
theorem score_bounds_witness :
    (∀ l ∈ [sampleLoan], l.emis_paid_on_time ≤ l.tenure) ∧
    (∀ l ∈ [sampleLoan], 0 < l.loan_amount) ∧
    (0 : ℚ) ≤ sampleCustomer.current_debt ∧
    (0 ≤ calculate_credit_score sampleCustomer [sampleLoan] 5 sampleToday ∧
      calculate_credit_score sampleCustomer [sampleLoan] 5 sampleToday ≤ 100) :=
  ⟨by simp [sampleLoan], by simp [sampleLoan], by simp [sampleCustomer],
   score_bounds sampleCustomer [sampleLoan] 5 sampleToday
     (by simp [sampleLoan]) (by simp [sampleLoan]) (by simp [sampleCustomer])⟩

/-! ## C3: tiered approval and rate correction -/

theorem ite_lt_eq_max (a b : ℚ) : (if a < b then b else a) = max a b := by
  rcases lt_or_le a b with h | h
  · rw [if_pos h, max_eq_right h.le]
  · rw [if_neg (not_lt.mpr h), max_eq_left h]

theorem check_tier_top (customer : Customer) (loans : List Loan)
    (loan_amount requested_rate : ℚ) (tenure : ℕ) (today : CalDate)
    (hgate : ¬ customer.total_current_emi > customer.monthly_salary / 2)
    (h50 : 50 < calculate_credit_score customer loans loan_amount today) :
    (check_loan_eligibility customer loans loan_amount requested_rate tenure today).approval
      = true ∧
    (check_loan_eligibility customer loans loan_amount requested_rate tenure today).corrected_interest_rate
      = if requested_rate < 0 then 0 else requested_rate := by
  simp only [check_loan_eligibility]
  rw [if_neg hgate]
  simp only [if_pos h50]
  simp

theorem check_tier_mid (customer : Customer) (loans : List Loan)
    (loan_amount requested_rate : ℚ) (tenure : ℕ) (today : CalDate)
    (hgate : ¬ customer.total_current_emi > customer.monthly_salary / 2)
    (h30 : 30 < calculate_credit_score customer loans loan_amount today)
    (h50 : calculate_credit_score customer loans loan_amount today ≤ 50) :
    (check_loan_eligibility customer loans loan_amount requested_rate tenure today).approval
      = true ∧
    (check_loan_eligibility customer loans loan_amount requested_rate tenure today).corrected_interest_rate
      = if requested_rate < 12 then 12 else requested_rate := by
  simp only [check_loan_eligibility]
  rw [if_neg hgate]
  simp only [if_neg (show ¬ 50 < calculate_credit_score customer loans loan_amount today
    by omega)]
  simp only [if_pos (show 30 < calculate_credit_score customer loans loan_amount today ∧
    calculate_credit_score customer loans loan_amount today ≤ 50 from ⟨h30, h50⟩)]
  simp

theorem check_tier_low (customer : Customer) (loans : List Loan)
    (loan_amount requested_rate : ℚ) (tenure : ℕ) (today : CalDate)
    (hgate : ¬ customer.total_current_emi > customer.monthly_salary / 2)
    (h10 : 10 < calculate_credit_score customer loans loan_amount today)
    (h30 : calculate_credit_score customer loans loan_amount today ≤ 30) :
    (check_loan_eligibility customer loans loan_amount requested_rate tenure today).approval
      = true ∧
    (check_loan_eligibility customer loans loan_amount requested_rate tenure today).corrected_interest_rate
      = if requested_rate < 16 then 16 else requested_rate := by
  simp only [check_loan_eligibility]
  rw [if_neg hgate]
  simp only [if_neg (show ¬ 50 < calculate_credit_score customer loans loan_amount today
    by omega)]
  simp only [if_neg (show ¬ (30 < calculate_credit_score customer loans loan_amount today ∧
    calculate_credit_score customer loans loan_amount today ≤ 50) by omega)]
  simp only [if_pos (show 10 < calculate_credit_score customer loans loan_amount today ∧
    calculate_credit_score customer loans loan_amount today ≤ 30 from ⟨h10, h30⟩)]
  simp

theorem check_tier_reject (customer : Customer) (loans : List Loan)
    (loan_amount requested_rate : ℚ) (tenure : ℕ) (today : CalDate)
    (hgate : ¬ customer.total_current_emi > customer.monthly_salary / 2)
    (h10 : calculate_credit_score customer loans loan_amount today ≤ 10) :
    (check_loan_eligibility customer loans loan_amount requested_rate tenure today).approval
      = false ∧
    (check_loan_eligibility customer loans loan_amount requested_rate tenure today).corrected_interest_rate
      = requested_rate ∧
    (check_loan_eligibility customer loans loan_amount requested_rate tenure today).monthly_installment
      = 0 := by
  simp only [check_loan_eligibility]
  rw [if_neg hgate]
  simp only [if_neg (show ¬ 50 < calculate_credit_score customer loans loan_amount today
    by omega)]
  simp only [if_neg (show ¬ (30 < calculate_credit_score customer loans loan_amount today ∧
    calculate_credit_score customer loans loan_amount today ≤ 50) by omega)]
  simp only [if_neg (show ¬ (10 < calculate_credit_score customer loans loan_amount today ∧
    calculate_credit_score customer loans loan_amount today ≤ 30) by omega)]
  simp

/-- C3 counterexample: at score 70 (> 50), salary gate passed, and a
requested rate of −1, the corrected rate is 0, not the requested rate:
the engine raises a negative requested rate to the tier minimum 0, so the
claim "for score > 50 the corrected rate equals the requested rate" fails. -/
theorem tier_top_rate_counterexample :
    (¬ sampleCustomer.total_current_emi > sampleCustomer.monthly_salary / 2) ∧
    50 < (check_loan_eligibility sampleCustomer [sampleLoan] 100 (-1) 12 sampleToday).credit_score ∧
    (check_loan_eligibility sampleCustomer [sampleLoan] 100 (-1) 12 sampleToday).corrected_interest_rate
      ≠ -1 := by
  refine ⟨by norm_num [sampleCustomer], ?_, ?_⟩ <;>
    norm_num [check_loan_eligibility, calculate_credit_score, sampleCustomer,
      sampleLoan, sampleToday, CalDate.le, roundHalfEven]

/-- C3 (amended): for every call that passes the salary gate, with `s` the
computed credit score: if `s > 50` the loan is approved and the corrected
rate is `max requestedRate 0` (equal to the requested rate whenever it is
non-negative); if `30 < s ≤ 50` it is approved with corrected rate
`max requestedRate 12`; if `10 < s ≤ 30` it is approved with corrected rate
`max requestedRate 16`; if `s ≤ 10` it is rejected, the corrected rate is
the requested rate, and the monthly installment is 0. -/
theorem tiered_decision (customer : Customer) (loans : List Loan)
    (loan_amount requested_rate : ℚ) (tenure : ℕ) (today : CalDate) (s : ℤ)
    (hgate : ¬ customer.total_current_emi > customer.monthly_salary / 2)
    (hs : calculate_credit_score customer loans loan_amount today = s) :
    (50 < s →
      (check_loan_eligibility customer loans loan_amount requested_rate tenure today).approval
        = true ∧
      (check_loan_eligibility customer loans loan_amount requested_rate tenure today).corrected_interest_rate
        = max requested_rate 0) ∧
    (30 < s ∧ s ≤ 50 →
      (check_loan_eligibility customer loans loan_amount requested_rate tenure today).approval
        = true ∧
      (check_loan_eligibility customer loans loan_amount requested_rate tenure today).corrected_interest_rate
        = max requested_rate 12) ∧
    (10 < s ∧ s ≤ 30 →
      (check_loan_eligibility customer loans loan_amount requested_rate tenure today).approval
        = true ∧
      (check_loan_eligibility customer loans loan_amount requested_rate tenure today).corrected_interest_rate
        = max requested_rate 16) ∧
    (s ≤ 10 →
      (check_loan_eligibility customer loans loan_amount requested_rate tenure today).approval
        = false ∧
      (check_loan_eligibility customer loans loan_amount requested_rate tenure today).corrected_interest_rate
        = requested_rate ∧
      (check_loan_eligibility customer loans loan_amount requested_rate tenure today).monthly_installment
        = 0) := by
  subst hs
  refine ⟨fun h50 => ?_, fun h30 => ?_, fun h10 => ?_, fun hr => ?_⟩
  · obtain ⟨ha, hc⟩ := check_tier_top customer loans loan_amount requested_rate tenure today
      hgate h50
    exact ⟨ha, hc.trans (ite_lt_eq_max requested_rate 0)⟩
  · obtain ⟨ha, hc⟩ := check_tier_mid customer loans loan_amount requested_rate tenure today
      hgate h30.1 h30.2
    exact ⟨ha, hc.trans (ite_lt_eq_max requested_rate 12)⟩
  · obtain ⟨ha, hc⟩ := check_tier_low customer loans loan_amount requested_rate tenure today
      hgate h10.1 h10.2
    exact ⟨ha, hc.trans (ite_lt_eq_max requested_rate 16)⟩
  · exact check_tier_reject customer loans loan_amount requested_rate tenure today hgate hr

/-- Witness for C3 (amended) at a concrete input whose credit score is 70. -/
theorem tiered_decision_witness :
    (¬ sampleCustomer.total_current_emi > sampleCustomer.monthly_salary / 2) ∧
    calculate_credit_score sampleCustomer [sampleLoan] 100 sampleToday = 70 ∧
    ((50 < (70 : ℤ) →
      (check_loan_eligibility sampleCustomer [sampleLoan] 100 8 12 sampleToday).approval
        = true ∧
      (check_loan_eligibility sampleCustomer [sampleLoan] 100 8 12 sampleToday).corrected_interest_rate
        = max 8 0) ∧
    (30 < (70 : ℤ) ∧ (70 : ℤ) ≤ 50 →
      (check_loan_eligibility sampleCustomer [sampleLoan] 100 8 12 sampleToday).approval
        = true ∧
      (check_loan_eligibility sampleCustomer [sampleLoan] 100 8 12 sampleToday).corrected_interest_rate
        = max 8 12) ∧
    (10 < (70 : ℤ) ∧ (70 : ℤ) ≤ 30 →
      (check_loan_eligibility sampleCustomer [sampleLoan] 100 8 12 sampleToday).approval
        = true ∧
      (check_loan_eligibility sampleCustomer [sampleLoan] 100 8 12 sampleToday).corrected_interest_rate
        = max 8 16) ∧
    ((70 : ℤ) ≤ 10 →
      (check_loan_eligibility sampleCustomer [sampleLoan] 100 8 12 sampleToday).approval
        = false ∧
      (check_loan_eligibility sampleCustomer [sampleLoan] 100 8 12 sampleToday).corrected_interest_rate
        = 8 ∧
      (check_loan_eligibility sampleCustomer [sampleLoan] 100 8 12 sampleToday).monthly_installment
        = 0)) :=
  ⟨by norm_num [sampleCustomer],
   by norm_num [calculate_credit_score, sampleCustomer, sampleLoan, sampleToday,
     CalDate.le, roundHalfEven],
   tiered_decision sampleCustomer [sampleLoan] 100 8 12 sampleToday 70
     (by norm_num [sampleCustomer])
     (by norm_num [calculate_credit_score, sampleCustomer, sampleLoan, sampleToday,
       CalDate.le, roundHalfEven])⟩

/-! ## C9: no fail-fast on invalid input -/

/-- C9 (evaluation at the failing inputs): the engine does not reject
invalid input.  A negative principal (−100) at zero rate over 5 months
yields the value −20.00, and a zero tenure at a positive rate yields 0;
in both cases a result is returned instead of an error being raised. -/
theorem invalid_input_returns_value :
    calculate_monthly_installment (-100) 0 5 = -20 ∧
    calculate_monthly_installment 100 5 0 = 0 := by
  constructor <;>
    norm_num [calculate_monthly_installment, quantize2, roundHalfEven]

/-! ## C8: monotonicity of the installment in the rate -/

theorem roundHalfEven_mono {a b : ℚ} (hab : a ≤ b) :
    roundHalfEven a ≤ roundHalfEven b := by
  have hf : ⌊a⌋ ≤ ⌊b⌋ := Int.floor_le_floor hab
  rcases lt_or_eq_of_le hf with hlt | heq
  · have h1 : roundHalfEven a ≤ ⌊a⌋ + 1 := by
      unfold roundHalfEven
      split_ifs <;> omega
    have h2 : ⌊b⌋ ≤ roundHalfEven b := by
      unfold roundHalfEven
      split_ifs <;> omega
    omega
  · unfold roundHalfEven
    rw [← heq]
    split_ifs <;> first | omega | (exfalso; linarith)

theorem quantize2_mono {a b : ℚ} (h : a ≤ b) : quantize2 a ≤ quantize2 b := by
  unfold quantize2
  have hr : roundHalfEven (a * 100) ≤ roundHalfEven (b * 100) :=
    roundHalfEven_mono (by linarith)
  have hrq : ((roundHalfEven (a * 100) : ℤ) : ℚ) ≤ ((roundHalfEven (b * 100) : ℤ) : ℚ) := by
    exact_mod_cast hr
  exact (div_le_div_iff_of_pos_right (by norm_num)).mpr hrq

theorem geom_sum_pos_of_pos {x : ℚ} {n : ℕ} (hx : 0 ≤ x) (hn : 0 < n) :
    0 < ∑ i in Finset.range n, x ^ i :=
  geom_sum_pos hx (Nat.pos_iff_ne_zero.mp hn)

theorem pow_mul_geom_sum_le {x y : ℚ} (n : ℕ) (hx : 1 ≤ x) (hxy : x ≤ y) :
    x ^ n * ∑ i in Finset.range n, y ^ i ≤ y ^ n * ∑ i in Finset.range n, x ^ i := by
  rw [Finset.mul_sum, Finset.mul_sum]
  apply Finset.sum_le_sum
  intro i hi
  have hi' : i < n := Finset.mem_range.mp hi
  have hx0 : (0 : ℚ) ≤ x := by linarith
  have hy0 : (0 : ℚ) ≤ y := by linarith
  have hxn : x ^ n = x ^ i * x ^ (n - i) := by
    rw [← pow_add]
    congr 1
    omega
  have hyn : y ^ n = y ^ i * y ^ (n - i) := by
    rw [← pow_add]
    congr 1
    omega
  calc x ^ n * y ^ i = x ^ i * y ^ i * x ^ (n - i) := by rw [hxn]; ring
    _ ≤ x ^ i * y ^ i * y ^ (n - i) := by
        apply mul_le_mul_of_nonneg_left (pow_le_pow_left₀ hx0 hxy _)
        exact mul_nonneg (pow_nonneg hx0 i) (pow_nonneg hy0 i)
    _ = y ^ n * x ^ i := by rw [hyn]; ring

theorem emi_core_mono {p x y : ℚ} (n : ℕ) (hp : 0 ≤ p) (hx : 1 ≤ x)
    (hxy : x ≤ y) (hn : 0 < n) :
    p * x ^ n / (∑ i in Finset.range n, x ^ i)
      ≤ p * y ^ n / (∑ i in Finset.range n, y ^ i) := by
  have hSx : 0 < ∑ i in Finset.range n, x ^ i :=
    geom_sum_pos_of_pos (by linarith) hn
  have hSy : 0 < ∑ i in Finset.range n, y ^ i :=
    geom_sum_pos_of_pos (by linarith) hn
  rw [div_le_div_iff₀ hSx hSy]
  have hcore := pow_mul_geom_sum_le n hx hxy
  calc p * x ^ n * ∑ i in Finset.range n, y ^ i
      = p * (x ^ n * ∑ i in Finset.range n, y ^ i) := by ring
    _ ≤ p * (y ^ n * ∑ i in Finset.range n, x ^ i) :=
        mul_le_mul_of_nonneg_left hcore hp
    _ = p * y ^ n * ∑ i in Finset.range n, x ^ i := by ring

theorem emi_zero_le_core {p y : ℚ} (n : ℕ) (hp : 0 ≤ p) (hy : 1 ≤ y) (hn : 0 < n) :
    p / (n : ℚ) ≤ p * y ^ n / (∑ i in Finset.range n, y ^ i) := by
  have hSy : 0 < ∑ i in Finset.range n, y ^ i :=
    geom_sum_pos_of_pos (by linarith) hn
  have hn' : (0 : ℚ) < (n : ℚ) := by exact_mod_cast hn
  rw [div_le_div_iff₀ hn' hSy]
  have hterm : ∑ i in Finset.range n, y ^ i ≤ (n : ℚ) * y ^ n := by
    calc ∑ i in Finset.range n, y ^ i ≤ ∑ _i in Finset.range n, y ^ n :=
          Finset.sum_le_sum (fun i hi =>
            pow_le_pow_right₀ hy (le_of_lt (Finset.mem_range.mp hi)))
      _ = (n : ℚ) * y ^ n := by
          rw [Finset.sum_const, Finset.card_range, nsmul_eq_mul]
  calc p * ∑ i in Finset.range n, y ^ i ≤ p * ((n : ℚ) * y ^ n) :=
        mul_le_mul_of_nonneg_left hterm hp
    _ = p * y ^ n * (n : ℚ) := by ring

theorem installment_pos_rate_eq (p r : ℚ) (n : ℕ) (hr : 0 < r) (hn : 0 < n) :
    calculate_monthly_installment p r n
      = quantize2 (p * (1 + r / 1200) ^ n / (∑ i in Finset.range n, (1 + r / 1200) ^ i)) := by
  have hrr : (0 : ℚ) < r / 1200 := by positivity
  have hS : 0 < ∑ i in Finset.range n, (1 + r / 1200) ^ i :=
    geom_sum_pos_of_pos (by linarith) hn
  have hgeom : (∑ i in Finset.range n, (1 + r / 1200) ^ i) * (1 + r / 1200 - 1)
      = (1 + r / 1200) ^ n - 1 := geom_sum_mul (1 + r / 1200) n
  have hdenom : (0 : ℚ) < (1 + r / 1200) ^ n - 1 := by
    rw [← hgeom]
    have h1 : (1 : ℚ) + r / 1200 - 1 = r / 1200 := by ring
    rw [h1]
    exact mul_pos hS hrr
  simp only [calculate_monthly_installment]
  rw [if_neg (ne_of_gt hr), if_neg (ne_of_gt hdenom)]
  congr 1
  rw [← hgeom]
  have hprod : (∑ i in Finset.range n, (1 + r / 1200) ^ i) * (1 + r / 1200 - 1) ≠ 0 := by
    rw [show (1 : ℚ) + r / 1200 - 1 = r / 1200 by ring]
    exact ne_of_gt (mul_pos hS hrr)
  rw [div_eq_div_iff hprod (ne_of_gt hS)]
  ring

/-- C8: for a fixed non-negative principal and fixed positive tenure, the
monthly installment is monotonically non-decreasing in the annual rate. -/
theorem installment_rate_mono (p r1 r2 : ℚ) (n : ℕ)
    (hp : 0 ≤ p) (h1 : 0 ≤ r1) (h12 : r1 ≤ r2) (hn : 0 < n) :
    calculate_monthly_installment p r1 n ≤ calculate_monthly_installment p r2 n := by
  rcases eq_or_lt_of_le h1 with hz1 | hpos1
  · rcases eq_or_lt_of_le h12 with hz2 | hpos2
    · rw [hz2]
    · have h2 : 0 < r2 := by rw [← hz1] at hpos2; exact hpos2
      rw [← hz1]
      have hzero : calculate_monthly_installment p 0 n = quantize2 (p / (n : ℚ)) := by
        unfold calculate_monthly_installment
        rw [if_pos rfl, if_neg (Nat.pos_iff_ne_zero.mp hn)]
      rw [hzero, installment_pos_rate_eq p r2 n h2 hn]
      apply quantize2_mono
      exact emi_zero_le_core n hp (by nlinarith) hn
  · have h2 : 0 < r2 := lt_of_lt_of_le hpos1 h12
    rw [installment_pos_rate_eq p r1 n hpos1 hn, installment_pos_rate_eq p r2 n h2 hn]
    apply quantize2_mono
    exact emi_core_mono n hp (by nlinarith) (by nlinarith) hn

/-- Witness for C8 at principal 100000, rates 0 and 12, tenure 12. -/
theorem installment_rate_mono_witness :
    (0 : ℚ) ≤ 100000 ∧ (0 : ℚ) ≤ 0 ∧ (0 : ℚ) ≤ 12 ∧ 0 < 12 ∧
    calculate_monthly_installment 100000 0 12 ≤ calculate_monthly_installment 100000 12 12 :=
  ⟨by norm_num, le_refl 0, by norm_num, by norm_num,
   installment_rate_mono 100000 0 12 12 (by norm_num) (le_refl 0) (by norm_num)
     (by norm_num)⟩
